import Mathlib

/-!
Verification of the lolo-cej-scraping scrape coordination engine.

This file shallowly embeds the pure core of the scraper — the normalizer,
content hasher, structured differ, change detector, snapshot/casefile
repository updates, worker persistence and failure handling, the adaptive
scheduler rule, the deadline-based priority calculator, and the browser
pool state machine — as executable Lean definitions translated from the
TypeScript source, and proves or refutes the specification's claims
about them.

Machine integers are modeled as `Nat`/`Int` with explicit `% 2^32`
masking where 32-bit overflow matters (SHA-256). Node's
`crypto.createHash("sha256")` is modeled by an executable SHA-256 over
the UTF-8 byte stream, following FIPS 180-4.
-/

/-! ## SHA-256 (model of Node `crypto` as used by `shared/utils/hash.ts`) -/

def M32 : Nat := 4294967296

def add32 (a b : Nat) : Nat := (a + b) % M32

def rotr32 (k x : Nat) : Nat := x / 2 ^ k + x % 2 ^ k * 2 ^ (32 - k)

def shr32 (k x : Nat) : Nat := x / 2 ^ k

def not32 (x : Nat) : Nat := Nat.xor x 4294967295

def bsig0 (x : Nat) : Nat := Nat.xor (Nat.xor (rotr32 2 x) (rotr32 13 x)) (rotr32 22 x)

def bsig1 (x : Nat) : Nat := Nat.xor (Nat.xor (rotr32 6 x) (rotr32 11 x)) (rotr32 25 x)

def ssig0 (x : Nat) : Nat := Nat.xor (Nat.xor (rotr32 7 x) (rotr32 18 x)) (shr32 3 x)

def ssig1 (x : Nat) : Nat := Nat.xor (Nat.xor (rotr32 17 x) (rotr32 19 x)) (shr32 10 x)

def chFn (e f g : Nat) : Nat := Nat.xor (Nat.land e f) (Nat.land (not32 e) g)

def majFn (a b c : Nat) : Nat := Nat.xor (Nat.xor (Nat.land a b) (Nat.land a c)) (Nat.land b c)

def shaK : List Nat :=
  [1116352408, 1899447441, 3049323471, 3921009573, 961987163, 1508970993,
   2453635748, 2870763221, 3624381080, 310598401, 607225278, 1426881987,
   1925078388, 2162078206, 2614888103, 3248222580, 3835390401, 4022224774,
   264347078, 604807628, 770255983, 1249150122, 1555081692, 1996064986,
   2554220882, 2821834349, 2952996808, 3210313671, 3336571891, 3584528711,
   113926993, 338241895, 666307205, 773529912, 1294757372, 1396182291,
   1695183700, 1986661051, 2177026350, 2456956037, 2730485921, 2820302411,
   3259730800, 3345764771, 3516065817, 3600352804, 4094571909, 275423344,
   430227734, 506948616, 659060556, 883997877, 958139571, 1322822218,
   1537002063, 1747873779, 1955562222, 2024104815, 2227730452, 2361852424,
   2428436474, 2756734187, 3204031479, 3329325298]

structure ShaState where
  a : Nat
  b : Nat
  c : Nat
  d : Nat
  e : Nat
  f : Nat
  g : Nat
  h : Nat

def shaInit : ShaState :=
  ⟨1779033703, 3144134277, 1013904242, 2773480762,
   1359893119, 2600822924, 528734635, 1541459225⟩

/-- Pad a byte message per SHA-256: append 0x80, zeros, then the 64-bit big-endian bit length. -/
def shaPad (msg : List Nat) : List Nat :=
  let len := msg.length
  let zeroCount := (64 - (len + 9) % 64) % 64
  let bitLen := len * 8
  msg ++ [128] ++ List.replicate zeroCount 0 ++
    [bitLen / 2 ^ 56 % 256, bitLen / 2 ^ 48 % 256, bitLen / 2 ^ 40 % 256, bitLen / 2 ^ 32 % 256,
     bitLen / 2 ^ 24 % 256, bitLen / 2 ^ 16 % 256, bitLen / 2 ^ 8 % 256, bitLen % 256]

/-- Parse a byte stream into big-endian 32-bit words, four bytes at a time. -/
def bytesToWords : List Nat → List Nat
  | b0 :: b1 :: b2 :: b3 :: rest => (b0 * 2 ^ 24 + b1 * 2 ^ 16 + b2 * 2 ^ 8 + b3) :: bytesToWords rest
  | _ => []

/-- Group a word stream into 16-word blocks. -/
def wordBlocks : List Nat → List (List Nat)
  | w0 :: w1 :: w2 :: w3 :: w4 :: w5 :: w6 :: w7 :: w8 :: w9 :: w10 :: w11 :: w12 :: w13 :: w14 :: w15 :: rest =>
      [w0, w1, w2, w3, w4, w5, w6, w7, w8, w9, w10, w11, w12, w13, w14, w15] :: wordBlocks rest
  | _ => []

/-- Extend a 16-word block to the 64-word message schedule. -/
def shaSchedule (ws : List Nat) : List Nat :=
  let step := fun (acc : Array Nat) (_ : Nat) =>
    let n := acc.size
    acc.push (add32 (add32 (ssig1 (acc.getD (n - 2) 0)) (acc.getD (n - 7) 0))
                    (add32 (ssig0 (acc.getD (n - 15) 0)) (acc.getD (n - 16) 0)))
  ((List.range 48).foldl step ws.toArray).toList

def shaRound (st : ShaState) (kw : Nat × Nat) : ShaState :=
  let t1 := add32 (add32 st.h (bsig1 st.e)) (add32 (chFn st.e st.f st.g) (add32 kw.1 kw.2))
  let t2 := add32 (bsig0 st.a) (majFn st.a st.b st.c)
  ⟨add32 t1 t2, st.a, st.b, st.c, add32 st.d t1, st.e, st.f, st.g⟩

def shaCompress (st : ShaState) (blk : List Nat) : ShaState :=
  let ws := shaSchedule blk
  let fin := (shaK.zip ws).foldl shaRound st
  ⟨add32 st.a fin.a, add32 st.b fin.b, add32 st.c fin.c, add32 st.d fin.d,
   add32 st.e fin.e, add32 st.f fin.f, add32 st.g fin.g, add32 st.h fin.h⟩

def wordBytes (w : Nat) : List Nat :=
  [w / 2 ^ 24 % 256, w / 2 ^ 16 % 256, w / 2 ^ 8 % 256, w % 256]

/-- SHA-256 digest of a byte message, as its 32 digest bytes. -/
def sha256Bytes (msg : List Nat) : List Nat :=
  let fin := (wordBlocks (bytesToWords (shaPad msg))).foldl shaCompress shaInit
  wordBytes fin.a ++ wordBytes fin.b ++ wordBytes fin.c ++ wordBytes fin.d ++
  wordBytes fin.e ++ wordBytes fin.f ++ wordBytes fin.g ++ wordBytes fin.h

def hexDigitChars : List Char := ("0123456789abcdef").data

def hexDigit (n : Nat) : Char := hexDigitChars.getD n '0'

/-- Lowercase hex rendering of a byte list (Node digest("hex")). -/
def bytesToHex (bs : List Nat) : String :=
  String.mk (bs.flatMap (fun b => [hexDigit (b / 16), hexDigit (b % 16)]))

/-- UTF-8 encoding of one scalar value, per RFC 3629. -/
def utf8Char (c : Char) : List Nat :=
  let n := c.toNat
  if n < 128 then [n]
  else if n < 2048 then [192 + n / 64, 128 + n % 64]
  else if n < 65536 then [224 + n / 4096, 128 + n / 64 % 64, 128 + n % 64]
  else [240 + n / 262144, 128 + n / 4096 % 64, 128 + n / 64 % 64, 128 + n % 64]

def utf8Encode (s : String) : List Nat := s.data.flatMap utf8Char

/-- SHA-256 of a string's UTF-8 bytes as a lowercase hex string:
the model of `crypto.createHash("sha256").update(s, "utf8").digest("hex")`. -/
def sha256Hex (s : String) : String := bytesToHex (sha256Bytes (utf8Encode s))

/-! ## JSON serialization (model of `JSON.stringify` as used by the source) -/

/-- Escape one character inside a JSON string literal, per ECMA-262
QuoteJSONString: quote, backslash, and the control characters. -/
def jsonEscapeChar (c : Char) : List Char :=
  if c = '"' then ['\\', '"']
  else if c = '\\' then ['\\', '\\']
  else if c.toNat = 8 then ['\\', 'b']
  else if c.toNat = 9 then ['\\', 't']
  else if c.toNat = 10 then ['\\', 'n']
  else if c.toNat = 12 then ['\\', 'f']
  else if c.toNat = 13 then ['\\', 'r']
  else if c.toNat < 32 then ['\\', 'u', '0', '0', hexDigit (c.toNat / 16), hexDigit (c.toNat % 16)]
  else [c]

/-- A JSON string literal with quotes and escapes. -/
def jsonString (s : String) : String :=
  "\"" ++ String.mk (s.data.flatMap jsonEscapeChar) ++ "\""

/-- JSON value for a nullable string: `null` or a quoted string. -/
def jsonOptString : Option String → String
  | none => "null"
  | some s => jsonString s

/-- JSON value for a nullable integer (JS number serialization for integers). -/
def jsonOptInt : Option Int → String
  | none => "null"
  | some n => toString n

/-! ## Data model (`shared/types/scrape-result.types.ts`, `shared/types/change.types.ts`) -/

/-- A raw notification extracted from a binnacle panel (RawBinNotification). -/
structure RawBinNotification where
  notificationCode : Option String
  addressee : Option String
  shipDate : Option String
  attachments : Option String
  deliveryMethod : Option String
  resolutionDate : Option String
  notificationPrint : Option String
  sentCentral : Option String
  centralReceipt : Option String
  notificationToRecipientOn : Option String
  chargeReturnedToCourtOn : Option String
deriving DecidableEq, Repr

/-- A raw binnacle entry extracted from the Portal DOM (RawBinnacleEntry). -/
structure RawBinnacleEntry where
  index : Int
  resolutionDate : Option String
  entryDate : Option String
  resolution : Option String
  notificationType : Option String
  acto : Option String
  fojas : Option String
  folios : Option String
  proveido : Option String
  sumilla : Option String
  userDescription : Option String
  notifications : List RawBinNotification
  urlDownload : Option String
deriving DecidableEq, Repr

/-- The canonical binnacle record used for hashing and diffing
(NormalizedBinnacleData). -/
structure NormalizedBinnacleData where
  index : Int
  resolutionDate : Option String
  entryDate : Option String
  resolution : Option String
  notificationType : Option String
  acto : Option String
  fojas : Option Int
  folios : Option Int
  provedioDate : Option String
  sumilla : Option String
  userDescription : Option String
  notificationCount : Nat
deriving DecidableEq, Repr

/-! ## Date utilities (`shared/utils/date.ts`) -/

/-- JS `String.prototype.trim`: strip leading and trailing whitespace
(modeled on the char list so it evaluates in the kernel). -/
def jsTrimList (cs : List Char) : List Char :=
  ((cs.dropWhile Char.isWhitespace).reverse.dropWhile Char.isWhitespace).reverse

def jsTrim (s : String) : String := String.mk (jsTrimList s.data)

def splitOnChar (sep : Char) (cs : List Char) : List (List Char) :=
  cs.foldr
    (fun c acc =>
      match acc with
      | [] => [[c]]
      | grp :: rest => if c = sep then [] :: grp :: rest else (c :: grp) :: rest)
    [[]]

def allDigits (cs : List Char) : Bool := cs.all Char.isDigit

def digitsToNat (cs : List Char) : Nat :=
  cs.foldl (fun acc c => acc * 10 + (c.toNat - 48)) 0

/-- Parse a 1-to-`maxLen`-digit numeric field, as moment's strict tokens do. -/
def parseNumField (minLen maxLen : Nat) (cs : List Char) : Option Nat :=
  if minLen ≤ cs.length ∧ cs.length ≤ maxLen ∧ allDigits cs then some (digitsToNat cs) else none

def isLeapYear (y : Nat) : Bool := y % 4 = 0 && (y % 100 ≠ 0 || y % 400 = 0)

def daysInMonth (m y : Nat) : Nat :=
  if m = 2 then (if isLeapYear y then 29 else 28)
  else if m = 4 ∨ m = 6 ∨ m = 9 ∨ m = 11 then 30
  else 31

def validYMD (y m d : Nat) : Bool :=
  decide (1 ≤ m) && decide (m ≤ 12) && decide (1 ≤ d) && decide (d ≤ daysInMonth m y)

def validHMS (h mi s : Nat) : Bool := decide (h ≤ 23) && decide (mi ≤ 59) && decide (s ≤ 59)

def pad2 (n : Nat) : String := if n < 10 then "0" ++ toString n else toString n

def pad4 (n : Nat) : String :=
  if n < 10 then "000" ++ toString n
  else if n < 100 then "00" ++ toString n
  else if n < 1000 then "0" ++ toString n
  else toString n

/-- Parse "DD/MM/YYYY" (moment strict) into (year, month, day). -/
def parseDMY (cs : List Char) : Option (Nat × Nat × Nat) :=
  match splitOnChar '/' cs with
  | [d, m, y] =>
    match parseNumField 1 2 d, parseNumField 1 2 m, parseNumField 4 4 y with
    | some dn, some mn, some yn => if validYMD yn mn dn then some (yn, mn, dn) else none
    | _, _, _ => none
  | _ => none

/-- Parse "HH:mm" or "HH:mm:ss" (moment strict) into (hour, minute, second). -/
def parseHMS (withSeconds : Bool) (cs : List Char) : Option (Nat × Nat × Nat) :=
  match withSeconds, splitOnChar ':' cs with
  | true, [h, mi, s] =>
    match parseNumField 1 2 h, parseNumField 1 2 mi, parseNumField 1 2 s with
    | some hn, some min, some sn => if validHMS hn min sn then some (hn, min, sn) else none
    | _, _, _ => none
  | false, [h, mi] =>
    match parseNumField 1 2 h, parseNumField 1 2 mi with
    | some hn, some min => if validHMS hn min 0 then some (hn, min, 0) else none
    | _, _ => none
  | _, _ => none

/-- Parse "YYYY-MM-DD" (moment strict) into (year, month, day). -/
def parseISOdate (cs : List Char) : Option (Nat × Nat × Nat) :=
  match splitOnChar '-' cs with
  | [y, m, d] =>
    match parseNumField 4 4 y, parseNumField 1 2 m, parseNumField 1 2 d with
    | some yn, some mn, some dn => if validYMD yn mn dn then some (yn, mn, dn) else none
    | _, _, _ => none
  | _ => none

def formatYMD (ymd : Nat × Nat × Nat) : String :=
  pad4 ymd.1 ++ "-" ++ pad2 ymd.2.1 ++ "-" ++ pad2 ymd.2.2

def formatHMS (hms : Nat × Nat × Nat) : String :=
  pad2 hms.1 ++ ":" ++ pad2 hms.2.1 ++ ":" ++ pad2 hms.2.2

/-- Model of `normalizeCEJDate`: parse the Portal's `DD/MM/YYYY[ HH:mm[:ss]]`
(or already-ISO `YYYY-MM-DD`) into ISO output; `null`, blank or `"-"` → null. -/
def normalizeCEJDate (dateStr : Option String) : Option String :=
  match dateStr with
  | none => none
  | some s =>
    let t := jsTrim s
    if t = "" ∨ t = "-" then none
    else
      match splitOnChar ' ' t.data with
      | [datePart, timePart] =>
        match parseDMY datePart with
        | some ymd =>
          match parseHMS true timePart with
          | some hms => some (formatYMD ymd ++ " " ++ formatHMS hms)
          | none =>
            match parseHMS false timePart with
            | some hms => some (formatYMD ymd ++ " " ++ formatHMS hms)
            | none => none
        | none => none
      | [datePart] =>
        match parseDMY datePart with
        | some ymd => some (formatYMD ymd)
        | none =>
          match parseISOdate datePart with
          | some ymd => some (formatYMD ymd)
          | none => none
      | _ => none

/-! ## Normalizer (`processing/data-normalizer.ts`) -/

/-- Model of `trimOrNull`: trim; empty or whitespace-only (or falsy) → null. -/
def trimOrNull (value : Option String) : Option String :=
  match value with
  | none => none
  | some s =>
    if s = "" then none
    else
      let trimmed := jsTrim s
      if trimmed = "" then none else some trimmed

/-- JS `parseInt(s, 10)` on a trimmed string: optional sign, then a
nonempty decimal digit prefix; otherwise NaN (here `none`). -/
def jsParseIntDigits (cs : List Char) : Option Nat :=
  let ds := cs.takeWhile Char.isDigit
  if ds.isEmpty then none else some (digitsToNat ds)

def jsParseInt (s : String) : Option Int :=
  match s.data with
  | '-' :: rest => (jsParseIntDigits rest).map (fun n => -(n : Int))
  | '+' :: rest => (jsParseIntDigits rest).map (fun n => (n : Int))
  | l => (jsParseIntDigits l).map (fun n => (n : Int))

/-- Model of `parseIntOrNull`. -/
def parseIntOrNull (value : Option String) : Option Int :=
  match value with
  | none => none
  | some s => if s = "" then none else jsParseInt (jsTrim s)

/-- Model of `normalizeBinnacleForDetection`. -/
def normalizeBinnacleForDetection (raw : RawBinnacleEntry) : NormalizedBinnacleData :=
  { index := raw.index
    resolutionDate := normalizeCEJDate raw.resolutionDate
    entryDate := normalizeCEJDate raw.entryDate
    resolution := trimOrNull raw.resolution
    notificationType := trimOrNull raw.notificationType
    acto := trimOrNull raw.acto
    fojas := parseIntOrNull raw.fojas
    folios := parseIntOrNull raw.folios
    provedioDate := normalizeCEJDate raw.proveido
    sumilla := trimOrNull raw.sumilla
    userDescription := trimOrNull raw.userDescription
    notificationCount := raw.notifications.length }

/-- JS `[...].sort((a, b) => a.index - b.index)` is the stable ascending
sort by `index`; insertion sort with `≤` on `index` realizes exactly that
stable order. -/
def sortByIndex (data : List NormalizedBinnacleData) : List NormalizedBinnacleData :=
  List.insertionSort (fun a b => a.index ≤ b.index) data

/-- Model of `normalizeAllBinnacles`: map then sort ascending by index. -/
def normalizeAllBinnacles (rawEntries : List RawBinnacleEntry) : List NormalizedBinnacleData :=
  sortByIndex (rawEntries.map normalizeBinnacleForDetection)

/-! ## Content hashing (`shared/utils/hash.ts`)

`computeHash` serializes the index-sorted entries with
`JSON.stringify(sorted, Object.keys(sorted[0] || {}).sort())`: the
replacer array fixes the serialized key order to the lexicographically
sorted key names of an entry (all entries share the same twelve keys),
then hashes the UTF-8 bytes with SHA-256. -/

/-- One entry serialized with its twelve keys in lexicographic order,
as `JSON.stringify` emits it under the sorted-keys replacer array. -/
def serializeEntrySortedKeys (e : NormalizedBinnacleData) : String :=
  "\x7b\"acto\":" ++ jsonOptString e.acto ++
  ",\"entryDate\":" ++ jsonOptString e.entryDate ++
  ",\"fojas\":" ++ jsonOptInt e.fojas ++
  ",\"folios\":" ++ jsonOptInt e.folios ++
  ",\"index\":" ++ toString e.index ++
  ",\"notificationCount\":" ++ toString e.notificationCount ++
  ",\"notificationType\":" ++ jsonOptString e.notificationType ++
  ",\"provedioDate\":" ++ jsonOptString e.provedioDate ++
  ",\"resolution\":" ++ jsonOptString e.resolution ++
  ",\"resolutionDate\":" ++ jsonOptString e.resolutionDate ++
  ",\"sumilla\":" ++ jsonOptString e.sumilla ++
  ",\"userDescription\":" ++ jsonOptString e.userDescription ++ "\x7d"

/-- A list of entries serialized as a JSON array under the replacer. -/
def serializeSortedKeys (l : List NormalizedBinnacleData) : String :=
  "[" ++ String.intercalate (",") (l.map serializeEntrySortedKeys) ++ "]"

/-- Model of `computeHash`: sort entries by index (stable), serialize with
keys in fixed lexicographic order, SHA-256 over the UTF-8 bytes, hex. -/
def computeHash (data : List NormalizedBinnacleData) : String :=
  sha256Hex (serializeSortedKeys (sortByIndex data))

/-- One entry serialized with keys in object insertion order, as plain
`JSON.stringify(entry)` (no replacer) emits it; used by the differ for
`oldValue`/`newValue` payloads of structural changes. -/
def serializeEntryInsertionOrder (e : NormalizedBinnacleData) : String :=
  "\x7b\"index\":" ++ toString e.index ++
  ",\"resolutionDate\":" ++ jsonOptString e.resolutionDate ++
  ",\"entryDate\":" ++ jsonOptString e.entryDate ++
  ",\"resolution\":" ++ jsonOptString e.resolution ++
  ",\"notificationType\":" ++ jsonOptString e.notificationType ++
  ",\"acto\":" ++ jsonOptString e.acto ++
  ",\"fojas\":" ++ jsonOptInt e.fojas ++
  ",\"folios\":" ++ jsonOptInt e.folios ++
  ",\"provedioDate\":" ++ jsonOptString e.provedioDate ++
  ",\"sumilla\":" ++ jsonOptString e.sumilla ++
  ",\"userDescription\":" ++ jsonOptString e.userDescription ++
  ",\"notificationCount\":" ++ toString e.notificationCount ++ "\x7d"

/-! ## Structured diff (`shared/utils/diff.ts`) -/

/-- Change type tags written to the change log (CHANGE_TYPES). -/
inductive ChangeType where
  | NEW_BINNACLE
  | MODIFIED_BINNACLE
  | REMOVED_BINNACLE
  | NEW_NOTIFICATION
  | NEW_FILE
deriving DecidableEq, Repr

/-- One detected change (ChangeEntry); absent JS object fields are `none`. -/
structure ChangeEntry where
  changeType : ChangeType
  fieldName : Option String := none
  oldValue : Option String := none
  newValue : Option String := none
  detectedAt : Nat
deriving DecidableEq, Repr

/-- Model of `buildEntryKey`: identity of an entry across snapshots is
`resolutionDate|entryDate|resolution` with null rendered empty. -/
def buildEntryKey (e : NormalizedBinnacleData) : String :=
  e.resolutionDate.getD ("") ++ "|" ++ e.entryDate.getD ("") ++ "|" ++ e.resolution.getD ("")

/-- JS `Map.set`: overwrite the value at the first occurrence of the key,
keeping its insertion position; otherwise append. -/
def mapSet (m : List (String × NormalizedBinnacleData)) (k : String)
    (v : NormalizedBinnacleData) : List (String × NormalizedBinnacleData) :=
  match m with
  | [] => [(k, v)]
  | (k0, v0) :: rest => if k0 = k then (k0, v) :: rest else (k0, v0) :: mapSet rest k v

/-- JS `Map.get`: the value at the key, if present. -/
def mapGet (m : List (String × NormalizedBinnacleData)) (k : String) :
    Option NormalizedBinnacleData :=
  match m with
  | [] => none
  | (k0, v0) :: rest => if k0 = k then some v0 else mapGet rest k

/-- The old-entry lookup map, built by inserting each old entry under its key. -/
def buildOldMap (oldData : List NormalizedBinnacleData) :
    List (String × NormalizedBinnacleData) :=
  oldData.foldl (fun m e => mapSet m (buildEntryKey e) e) []

/-- The eight fields compared for MODIFIED_BINNACLE detection
(`fieldsToCompare` in `compareFields`). -/
inductive CompareField where
  | notificationType
  | acto
  | fojas
  | folios
  | provedioDate
  | sumilla
  | userDescription
  | notificationCount
deriving DecidableEq, Repr

def CompareField.name : CompareField → String
  | .notificationType => "notificationType"
  | .acto => "acto"
  | .fojas => "fojas"
  | .folios => "folios"
  | .provedioDate => "provedioDate"
  | .sumilla => "sumilla"
  | .userDescription => "userDescription"
  | .notificationCount => "notificationCount"

def fieldsToCompare : List CompareField :=
  [.notificationType, .acto, .fojas, .folios, .provedioDate, .sumilla,
   .userDescription, .notificationCount]

/-- JS `String(entry[field] ?? "")`: null becomes the empty string,
numbers their decimal rendering. -/
def fieldString (e : NormalizedBinnacleData) : CompareField → String
  | .notificationType => e.notificationType.getD ("")
  | .acto => e.acto.getD ("")
  | .fojas => (e.fojas.map toString).getD ("")
  | .folios => (e.folios.map toString).getD ("")
  | .provedioDate => e.provedioDate.getD ("")
  | .sumilla => e.sumilla.getD ("")
  | .userDescription => e.userDescription.getD ("")
  | .notificationCount => toString e.notificationCount

/-- Model of `compareFields`: one MODIFIED_BINNACLE entry per differing
field, in `fieldsToCompare` order. -/
def compareFields (oldEntry newEntry : NormalizedBinnacleData) (detectedAt : Nat) :
    List ChangeEntry :=
  fieldsToCompare.filterMap (fun f =>
    let oldVal := fieldString oldEntry f
    let newVal := fieldString newEntry f
    if oldVal ≠ newVal then
      some { changeType := .MODIFIED_BINNACLE, fieldName := some f.name,
             oldValue := some oldVal, newValue := some newVal, detectedAt := detectedAt }
    else none)

/-- The change pushed for a new entry absent from the old snapshot. -/
def newBinnacleChange (e : NormalizedBinnacleData) (detectedAt : Nat) : ChangeEntry :=
  { changeType := .NEW_BINNACLE, detectedAt := detectedAt,
    newValue := some (serializeEntryInsertionOrder e) }

/-- The change pushed for an old entry with no match in the new data. -/
def removedBinnacleChange (e : NormalizedBinnacleData) (detectedAt : Nat) : ChangeEntry :=
  { changeType := .REMOVED_BINNACLE, detectedAt := detectedAt,
    oldValue := some (serializeEntryInsertionOrder e) }

/-- One step of the new-data loop in `computeStructuredDiff`: accumulate
the emitted changes and the set of matched old keys. -/
def diffStep (oldMap : List (String × NormalizedBinnacleData)) (detectedAt : Nat)
    (acc : List ChangeEntry × List String) (newEntry : NormalizedBinnacleData) :
    List ChangeEntry × List String :=
  let key := buildEntryKey newEntry
  match mapGet oldMap key with
  | none => (acc.1 ++ [newBinnacleChange newEntry detectedAt], acc.2)
  | some oldEntry => (acc.1 ++ compareFields oldEntry newEntry detectedAt, key :: acc.2)

/-- Model of `computeStructuredDiff`: compare each new entry against the
old map, then emit REMOVED_BINNACLE for unmatched old map entries in
insertion order. `detectedAt` models the single `new Date()` taken at entry. -/
def computeStructuredDiff (oldData newData : List NormalizedBinnacleData)
    (detectedAt : Nat) : List ChangeEntry :=
  let oldMap := buildOldMap oldData
  let res := newData.foldl (diffStep oldMap detectedAt) ([], [])
  res.1 ++ (oldMap.filter (fun p => !(res.2.contains p.1))).map
    (fun p => removedBinnacleChange p.2 detectedAt)

/-! ## Change detector (`processing/change-detector.ts`) -/

/-- Result of change detection (ChangeDetectionResult). -/
structure ChangeDetectionResult where
  isFirstScrape : Bool
  hasChanges : Bool
  changes : List ChangeEntry
  newHash : String
  oldHash : String
  newBinnacleCount : Nat
deriving DecidableEq, Repr

/-- Model of `detectChanges`: normalize, hash, then first-scrape check,
hash fast path, or structured-diff slow path. -/
def detectChanges (now : Nat) (newBinnacles : List RawBinnacleEntry)
    (previousSnapshot : Option (List NormalizedBinnacleData))
    (previousHash : String) : ChangeDetectionResult :=
  let normalizedNew := normalizeAllBinnacles newBinnacles
  let newHash := computeHash normalizedNew
  if previousSnapshot = none ∨ previousSnapshot = some [] then
    { isFirstScrape := true, hasChanges := true, changes := [],
      newHash := newHash, oldHash := "", newBinnacleCount := normalizedNew.length }
  else if newHash = previousHash then
    { isFirstScrape := false, hasChanges := false, changes := [],
      newHash := newHash, oldHash := previousHash, newBinnacleCount := normalizedNew.length }
  else
    let changes := computeStructuredDiff (previousSnapshot.getD []) normalizedNew now
    { isFirstScrape := false, hasChanges := decide (0 < changes.length), changes := changes,
      newHash := newHash, oldHash := previousHash, newBinnacleCount := normalizedNew.length }

/-! ## Snapshot repository (`persistence/repositories/snapshot.repository.ts`) -/

/-- A SCRAPE_SNAPSHOT row; `rawData` holds the stored normalized payload
(the JSON string round-trips to this list on read). -/
structure SnapshotRec where
  contentHash : String
  binnacleCount : Nat
  rawData : List NormalizedBinnacleData
  lastScrapedAt : Nat
  lastChangedAt : Option Nat
  scrapeCount : Nat
  consecutiveNoChange : Nat
  errorCount : Nat
  lastError : Option String
deriving DecidableEq, Repr

/-- The argument object of `snapshotRepo.upsert`; optional JS fields that
a caller may omit are `Option` with `none` for `undefined`. -/
structure SnapshotUpsertData where
  contentHash : String
  binnacleCount : Nat
  rawData : List NormalizedBinnacleData
  lastScrapedAt : Nat
  lastChangedAt : Option Nat := none
  scrapeCount : Option Nat := none
  consecutiveNoChange : Option Nat := none
  errorCount : Option Nat := none
  lastError : Option String := none
deriving DecidableEq, Repr

/-- Model of `snapshotRepo.upsert`: update the existing snapshot
(incrementing `scrapeCount`, defaulting omitted counters with `?? 0` and
`?? null`) or create the first one with `scrapeCount = 1`. -/
def snapshotUpsert (existing : Option SnapshotRec) (data : SnapshotUpsertData) : SnapshotRec :=
  match existing with
  | some ex =>
    { contentHash := data.contentHash
      binnacleCount := data.binnacleCount
      rawData := data.rawData
      lastScrapedAt := data.lastScrapedAt
      lastChangedAt := match data.lastChangedAt with | some d => some d | none => ex.lastChangedAt
      scrapeCount := ex.scrapeCount + 1
      consecutiveNoChange := data.consecutiveNoChange.getD 0
      errorCount := data.errorCount.getD 0
      lastError := data.lastError }
  | none =>
    { contentHash := data.contentHash
      binnacleCount := data.binnacleCount
      rawData := data.rawData
      lastScrapedAt := data.lastScrapedAt
      lastChangedAt := data.lastChangedAt
      scrapeCount := 1
      consecutiveNoChange := data.consecutiveNoChange.getD 0
      errorCount := 0
      lastError := none }

/-- Model of `snapshotRepo.incrementNoChange`: bump the counter when a
snapshot exists, otherwise do nothing. -/
def incrementNoChange (s : Option SnapshotRec) : Option SnapshotRec :=
  s.map (fun x => { x with consecutiveNoChange := x.consecutiveNoChange + 1 })

/-- Model of `snapshotRepo.recordError`: set `lastError` and bump
`errorCount` when a snapshot exists, otherwise do nothing. -/
def recordError (s : Option SnapshotRec) (errorMessage : String) : Option SnapshotRec :=
  s.map (fun x => { x with lastError := some errorMessage, errorCount := x.errorCount + 1 })

/-! ## Case file repository (`persistence/repositories/casefile.repository.ts`) -/

/-- The JUDICIAL_CASE_FILE columns the engine reads or writes. -/
structure CaseFileRec where
  isScanValid : Bool
  wasScanned : Bool
  lastScrapedAt : Option Nat
  hasPendingChanges : Bool
deriving DecidableEq, Repr

/-- Model of `casefileRepo.markScraped`. -/
def markScraped (cf : CaseFileRec) (now : Nat) (hasChanges : Bool) : CaseFileRec :=
  { cf with wasScanned := true, lastScrapedAt := some now, hasPendingChanges := hasChanges }

/-! ## Worker persistence and failure handling (`workers/scrape.worker.ts`) -/

/-- A SCRAPE_CHANGE_LOG row as the worker maps a ChangeEntry to it. -/
structure ChangeLogRecord where
  changeType : ChangeType
  fieldName : Option String
  oldValue : Option String
  newValue : Option String
  detectedAt : Nat
  notified : Bool
deriving DecidableEq, Repr

/-- JS `x || null` on a nullable string: empty string also becomes null. -/
def jsOrNull (o : Option String) : Option String :=
  match o with
  | none => none
  | some s => if s = "" then none else some s

/-- The worker's mapping from a detected change to a change log row. -/
def toChangeLogRecord (c : ChangeEntry) : ChangeLogRecord :=
  { changeType := c.changeType, fieldName := jsOrNull c.fieldName,
    oldValue := jsOrNull c.oldValue, newValue := jsOrNull c.newValue,
    detectedAt := c.detectedAt, notified := false }

/-- The persistent state one scrape job reads and writes. -/
structure WorkerState where
  snapshot : Option SnapshotRec
  changeLog : List ChangeLogRecord
  caseFile : CaseFileRec
deriving DecidableEq, Repr

/-- The worker's snapshot persistence steps (scrape.worker.ts lines
210-224): upsert with `lastChangedAt`/`consecutiveNoChange` passed only
when changes were found, then `incrementNoChange` on a non-first
no-change scrape. -/
def persistSnapshotPhase (detection : ChangeDetectionResult) (now : Nat)
    (snap : Option SnapshotRec) (validCount : Nat)
    (normalized : List NormalizedBinnacleData) : Option SnapshotRec :=
  let s1 := some (snapshotUpsert snap
    { contentHash := detection.newHash
      binnacleCount := validCount
      rawData := normalized
      lastScrapedAt := now
      lastChangedAt := if detection.hasChanges then some now else none
      consecutiveNoChange := if detection.hasChanges then some 0 else none })
  if !detection.hasChanges && !detection.isFirstScrape then incrementNoChange s1 else s1

/-- The worker's success path over the persistent state (scrape.worker.ts
lines 124-242): detect changes against the stored snapshot, persist the
snapshot, append change log rows on a non-first changed scrape, and mark
the case file scraped with `hasPendingChanges = hasChanges`. -/
def persistScrapeResult (now : Nat) (validBinnacles : List RawBinnacleEntry)
    (st : WorkerState) : WorkerState × ChangeDetectionResult :=
  let previousHash := match st.snapshot with | some s => s.contentHash | none => ""
  let previousData := st.snapshot.map (fun s => s.rawData)
  let detection := detectChanges now validBinnacles previousData previousHash
  let normalizedForHash := normalizeAllBinnacles validBinnacles
  let snap1 := persistSnapshotPhase detection now st.snapshot validBinnacles.length normalizedForHash
  let log1 :=
    if detection.hasChanges && !detection.isFirstScrape then
      st.changeLog ++ detection.changes.map toChangeLogRecord
    else st.changeLog
  let cf1 := markScraped st.caseFile now detection.hasChanges
  ({ snapshot := snap1, changeLog := log1, caseFile := cf1 }, detection)

/-- A classified scraping error (ScrapeError: code and retryable flag). -/
structure ScrapeErrCls where
  code : String
  retryable : Bool
deriving DecidableEq, Repr

/-- InvalidCaseNumberError: code INVALID_CASE_NUMBER, retryable false. -/
def invalidCaseNumberErr : ScrapeErrCls := { code := "INVALID_CASE_NUMBER", retryable := false }

def botDetectedErr : ScrapeErrCls := { code := "BOT_DETECTED", retryable := true }

def captchaFailedErr : ScrapeErrCls := { code := "CAPTCHA_FAILED", retryable := true }

/-- Page classification outcome after CONSULTAR (cej-navigator assessPageState). -/
structure PageState where
  isAntibotPage : Bool
  hasResults : Bool
  hasNoResults : Bool
  hasBinnaclePanel : Bool
  hasCaptchaError : Bool
deriving DecidableEq, Repr

/-- The error `submitCaseFileSearch` raises for a given final page state
once the antibot retries are exhausted (form-submitter.ts lines 165-221):
antibot → BotDetected, captcha error → CaptchaFailed, no results →
InvalidCaseNumber; otherwise no error is thrown at this point. -/
def classifySubmission (ps : PageState) : Option ScrapeErrCls :=
  if ps.isAntibotPage then some botDetectedErr
  else if ps.hasCaptchaError then some captchaFailedErr
  else if ps.hasNoResults then some invalidCaseNumberErr
  else none

/-- The worker's `willRetry` flag for the job log (scrape.worker.ts line
290): `scrapeError?.retryable !== false && job.attemptsMade < 2`. -/
def workerWillRetry (err : Option ScrapeErrCls) (attemptsMade : Nat) : Bool :=
  (match err with | some e => e.retryable | none => true) && decide (attemptsMade < 2)

/-- `jobLogRepo.logFailure` records RETRYING when `willRetry` else FAILED. -/
def jobLogFailureStatus (willRetry : Bool) : String :=
  if willRetry then "RETRYING" else "FAILED"

/-- RETRY_CONFIG.MAX_ATTEMPTS from config/constants.ts. -/
def RETRY_MAX_ATTEMPTS : Nat := 3

/-- Modelled from the spec: the queue library's retry policy (BullMQ is
not part of this repository). A job whose processor throws is
re-attempted while completed attempts stay below the configured
`attempts` (RETRY_CONFIG.MAX_ATTEMPTS = 3, queue.config.ts); the thrown
error's `retryable` flag is never consulted by the queue. -/
def queueRetriesAfterFailure (attemptsMade : Nat) : Bool :=
  decide (attemptsMade + 1 < RETRY_MAX_ATTEMPTS)

/-- The worker's catch block (scrape.worker.ts lines 285-311): log the
failure with the classified code and `willRetry` flag, record the error
on the snapshot, and rethrow so the queue applies its retry policy. The
returned triple is (new state, job log status, queue retries the job). -/
def handleScrapeFailure (err : Option ScrapeErrCls) (errorMessage : String)
    (attemptsMade : Nat) (st : WorkerState) : WorkerState × String × Bool :=
  let willRetry := workerWillRetry err attemptsMade
  ({ st with snapshot := recordError st.snapshot errorMessage },
   jobLogFailureStatus willRetry,
   queueRetriesAfterFailure attemptsMade)

/-! ## Adaptive scheduler rule (`scheduler/schedule-planner.ts`, `config/constants.ts`) -/

def NEW_CASE_MAX_AGE_DAYS : Int := 7

def ACTIVE_CHANGE_WINDOW_DAYS : Int := 7

def MODERATE_STALE_DAYS : Int := 30

def HIGH_STALE_DAYS : Int := 90

def VERY_STALE_SCRAPE_INTERVAL_DAYS : Int := 7

def HIGH_STALE_SCRAPE_INTERVAL_DAYS : Int := 3

def MODERATE_STALE_SCRAPE_INTERVAL_DAYS : Int := 1

/-- The snapshot staleness facts `shouldScrapeNow` reads: days since the
last detected change (none when `lastChangedAt` is null) and days since
the last scrape, both as `daysSince` integer day differences. -/
structure SnapshotStaleness where
  daysSinceLastChanged : Option Int
  daysSinceLastScraped : Int
deriving DecidableEq, Repr

/-- Model of `shouldScrapeNow` (schedule-planner.ts lines 167-204), taking
the `daysSince` values as inputs: young case or missing snapshot or
recently active → due; otherwise an exclusive staleness cascade with the
`lastChangedAt = null` default of 999 days. -/
def shouldScrapeNow (daysSinceCreated : Int) (snapshot : Option SnapshotStaleness) : Bool :=
  if daysSinceCreated < NEW_CASE_MAX_AGE_DAYS then true
  else
    match snapshot with
    | none => true
    | some snap =>
      if (match snap.daysSinceLastChanged with
          | some d => decide (d < ACTIVE_CHANGE_WINDOW_DAYS)
          | none => false) then true
      else
        let daysSinceLastChange := snap.daysSinceLastChanged.getD 999
        if daysSinceLastChange > HIGH_STALE_DAYS then
          decide (snap.daysSinceLastScraped ≥ VERY_STALE_SCRAPE_INTERVAL_DAYS)
        else if daysSinceLastChange > MODERATE_STALE_DAYS then
          decide (snap.daysSinceLastScraped ≥ HIGH_STALE_SCRAPE_INTERVAL_DAYS)
        else
          decide (snap.daysSinceLastScraped ≥ MODERATE_STALE_SCRAPE_INTERVAL_DAYS)

/-- The claim's reading of the adaptive frequency rule, stated as a pure
disjunction of the spec's clauses (claim C4's interpretation, against
which the source's exclusive cascade is compared). -/
def specClaimDueDisjunction (daysSinceCreated : Int) (snapshot : Option SnapshotStaleness) : Bool :=
  match snapshot with
  | none => true
  | some snap =>
    let dcOpt := snap.daysSinceLastChanged
    let dc := dcOpt.getD 999
    let ds := snap.daysSinceLastScraped
    decide (daysSinceCreated < 7) ||
    (match dcOpt with | some d => decide (d < 7) | none => false) ||
    (decide (dc > 90) && decide (ds ≥ 7)) ||
    (decide (dc > 30) && decide (ds ≥ 3)) ||
    decide (ds ≥ 1)

/-! ## Priority (`scheduler/deadline-calculator.ts`, `shared/utils/date.ts`) -/

def PRIORITY_CRITICAL : Nat := 1

def PRIORITY_HIGH : Nat := 2

def PRIORITY_MEDIUM : Nat := 3

def PRIORITY_LOW : Nat := 5

/-- Minutes in a day; wall-clock times are minutes after midnight Lima. -/
def MINUTES_PER_DAY : Nat := 1440

/-- Model of `hoursUntil` at minute granularity: minutes from `now` to the
target wall-clock minute, rolling past targets to tomorrow. `hoursUntil`
returns this value divided by 60 as a fraction; the thresholds below
compare that fraction against whole hours, so minutes are exact. -/
def hoursUntilMinutes (now target : Nat) : Nat :=
  if target < now then target + MINUTES_PER_DAY - now else target - now

/-- The threshold mapping shared by `calculatePriority` and
`calculatePriorityFromMultipleHours`, on minutes until the deadline. -/
def priorityFromMinutes (minutes : Nat) : Nat :=
  if minutes < 60 then PRIORITY_CRITICAL
  else if minutes < 180 then PRIORITY_HIGH
  else if minutes < 360 then PRIORITY_MEDIUM
  else PRIORITY_LOW

/-- Model of `calculatePriorityFromMultipleHours`: empty hour list →
LOW; otherwise thresholds on the minimum `hoursUntil` over the hours. -/
def calculatePriorityFromMultipleHours (now : Nat) (hours : List Nat) : Nat :=
  match hours with
  | [] => PRIORITY_LOW
  | h :: t => priorityFromMinutes ((t.map (hoursUntilMinutes now)).foldl min (hoursUntilMinutes now h))

/-- The claim's reading of the priority rule (claim C8's interpretation):
a Tenant with no configured hours defaults to the 23:59 wall-clock target
(minute 1439) before applying the thresholds. -/
def specClaimPriorityWithDefault (now : Nat) (hours : List Nat) : Nat :=
  match hours with
  | [] => priorityFromMinutes (hoursUntilMinutes now 1439)
  | h :: t => priorityFromMinutes ((t.map (hoursUntilMinutes now)).foldl min (hoursUntilMinutes now h))

/-! ## Queue producer (`queue/queue.producer.ts`) -/

/-- A job as enqueued by the producer: its deduplication id and priority. -/
structure EnqueuedJob where
  jobId : String
  priority : Nat
deriving DecidableEq, Repr

/-- Model of `enqueueInitialScrape`: dedup id `initial-{id}-{YYYYMMDD}`,
priority CRITICAL. -/
def enqueueInitialScrape (caseFileId : Nat) (dateStr : String) : EnqueuedJob :=
  { jobId := "initial-" ++ toString caseFileId ++ "-" ++ dateStr, priority := PRIORITY_CRITICAL }

/-- Model of `enqueuePriorityScrape`: id `priority-{id}-{unixMillis}`
(never dedups), priority CRITICAL. -/
def enqueuePriorityScrape (caseFileId : Nat) (nowMillis : Nat) : EnqueuedJob :=
  { jobId := "priority-" ++ toString caseFileId ++ "-" ++ toString nowMillis,
    priority := PRIORITY_CRITICAL }

/-! ## Browser pool (`scraping/browser/browser-pool.ts`) -/

/-- A pooled browser session: the underlying browser's identity, pages
opened since the last recycle, and whether a worker holds it. -/
structure PooledBrowser where
  browserId : Nat
  pageCount : Nat
  inUse : Bool
deriving DecidableEq, Repr

/-- The pool's state: slots, capacity, recycle threshold, FIFO waiter
queue, and a source of fresh browser identities for launches. -/
structure PoolState where
  pool : List PooledBrowser
  maxSize : Nat
  maxPagesPerBrowser : Nat
  waitQueue : List Nat
  nextBrowserId : Nat
deriving DecidableEq, Repr

/-- Outcome of an `acquire` call: a session handed out now, or the caller
queued as a waiter. -/
inductive AcquireOutcome where
  | acquired (b : PooledBrowser)
  | waiting
deriving DecidableEq, Repr

def defaultPooledBrowser : PooledBrowser := { browserId := 0, pageCount := 0, inUse := false }

/-- Model of `BrowserPool.acquire`: take the first idle slot, mark it in
use and bump its page count, recycling (close + relaunch + reset count)
when the bumped count reaches `maxPagesPerBrowser`; else launch a new
browser if below capacity; else join the FIFO wait queue. -/
def poolAcquire (s : PoolState) (waiterId : Nat) : PoolState × AcquireOutcome :=
  match s.pool.findIdx? (fun pb => !pb.inUse) with
  | some i =>
    let pb := s.pool.getD i defaultPooledBrowser
    let pb1 := { pb with inUse := true, pageCount := pb.pageCount + 1 }
    if pb1.pageCount ≥ s.maxPagesPerBrowser then
      let pb2 : PooledBrowser := { browserId := s.nextBrowserId, pageCount := 0, inUse := true }
      ({ s with pool := s.pool.set i pb2, nextBrowserId := s.nextBrowserId + 1 },
       .acquired pb2)
    else
      ({ s with pool := s.pool.set i pb1 }, .acquired pb1)
  | none =>
    if s.pool.length < s.maxSize then
      let pb : PooledBrowser := { browserId := s.nextBrowserId, pageCount := 1, inUse := true }
      ({ s with pool := s.pool ++ [pb], nextBrowserId := s.nextBrowserId + 1 }, .acquired pb)
    else
      ({ s with waitQueue := s.waitQueue ++ [waiterId] }, .waiting)

/-- Model of `BrowserPool.release`: mark the slot idle; if a waiter is
queued, immediately mark it in use again, bump its page count and hand
the same session to the first waiter — with no recycle check. Returns
the waiter id and handed session when a hand-off happens. -/
def poolRelease (s : PoolState) (browserId : Nat) : PoolState × Option (Nat × PooledBrowser) :=
  match s.pool.findIdx? (fun pb => pb.browserId = browserId) with
  | none => (s, none)
  | some i =>
    let pb := s.pool.getD i defaultPooledBrowser
    match s.waitQueue with
    | [] => ({ s with pool := s.pool.set i { pb with inUse := false } }, none)
    | w :: rest =>
      let pb2 := { pb with inUse := true, pageCount := pb.pageCount + 1 }
      ({ s with pool := s.pool.set i pb2, waitQueue := rest }, some (w, pb2))

/-! ## Concrete fixtures used by counterexamples and witnesses -/

/-- A raw extraction entry at index 1 (dates absent, a resolution and act). -/
def rawEntryIdx1 : RawBinnacleEntry :=
  { index := 1, resolutionDate := none, entryDate := none, resolution := some ("RES"),
    notificationType := none, acto := some ("X"), fojas := none, folios := none,
    proveido := none, sumilla := none, userDescription := none,
    notifications := [], urlDownload := none }

/-- The same entry extracted at index 2 (only the panel position moved). -/
def rawEntryIdx2 : RawBinnacleEntry :=
  { rawEntryIdx1 with index := 2 }

/-- A second, distinct raw entry at index 2. -/
def rawEntryOther : RawBinnacleEntry :=
  { rawEntryIdx1 with index := 2, resolution := some ("RES-2"), acto := some ("Y") }

/-- The normalized form of `rawEntryIdx1`. -/
def normEntryIdx1 : NormalizedBinnacleData := normalizeBinnacleForDetection rawEntryIdx1

/-- A normalized entry with index 1 and act "A" (for permutation tests). -/
def dupIdxA : NormalizedBinnacleData :=
  { index := 1, resolutionDate := none, entryDate := none, resolution := some ("R"),
    notificationType := none, acto := some ("A"), fojas := none, folios := none,
    provedioDate := none, sumilla := none, userDescription := none, notificationCount := 0 }

/-- The same index 1 but act "B": same sort key, different content. -/
def dupIdxB : NormalizedBinnacleData := { dupIdxA with acto := some ("B") }

/-- Two old entries sharing the diff key `||R` but differing in content. -/
def dupKeyOld : List NormalizedBinnacleData := [dupIdxA, dupIdxB]

/-- A case file row before any scrape. -/
def caseFileFresh : CaseFileRec :=
  { isScanValid := true, wasScanned := false, lastScrapedAt := none, hasPendingChanges := false }

/-- Worker state before the first scrape: no snapshot, empty change log. -/
def stateNoSnapshot : WorkerState :=
  { snapshot := none, changeLog := [], caseFile := caseFileFresh }

/-- A stored snapshot after one no-change follow-up scrape
(`consecutiveNoChange = 1`), used as the C2 failing input. -/
def snapshotAfterOneNoChange : SnapshotRec :=
  { contentHash := "h", binnacleCount := 1, rawData := [normEntryIdx1], lastScrapedAt := 5,
    lastChangedAt := some 1, scrapeCount := 2, consecutiveNoChange := 1,
    errorCount := 0, lastError := none }

/-- A detection result of a non-first no-change scrape. -/
def detectionNoChange : ChangeDetectionResult :=
  { isFirstScrape := false, hasChanges := false, changes := [], newHash := "h",
    oldHash := "h", newBinnacleCount := 1 }

/-- A worker state owning `snapshotAfterOneNoChange`. -/
def stateWithSnapshot : WorkerState :=
  { snapshot := some snapshotAfterOneNoChange, changeLog := [], caseFile := caseFileFresh }

/-- The page state of the Portal's no-results answer. -/
def noResultsPage : PageState :=
  { isAntibotPage := false, hasResults := false, hasNoResults := true,
    hasBinnaclePanel := false, hasCaptchaError := false }

/-- A one-slot pool recycling after two pages, before any launch. -/
def poolOneSlot : PoolState :=
  { pool := [], maxSize := 1, maxPagesPerBrowser := 2, waitQueue := [], nextBrowserId := 0 }

/-- The per-entry diff block: what the new-data loop emits for one new
entry (a NEW_BINNACLE when its key is absent from the old map, else one
MODIFIED_BINNACLE per differing compared field). -/
def diffBlock (oldMap : List (String × NormalizedBinnacleData)) (detectedAt : Nat)
    (newEntry : NormalizedBinnacleData) : List ChangeEntry :=
  match mapGet oldMap (buildEntryKey newEntry) with
  | none => [newBinnacleChange newEntry detectedAt]
  | some oldEntry => compareFields oldEntry newEntry detectedAt

/-- The dupIdxA entry moved to index 2 (distinct indices for C5). -/
def idx2Entry : NormalizedBinnacleData := { dupIdxA with index := 2 }

/-- A one-slot pool whose idle session is one page below the limit of 2. -/
def poolNearLimit : PoolState :=
  { pool := [{ browserId := 0, pageCount := 1, inUse := false }], maxSize := 1,
    maxPagesPerBrowser := 2, waitQueue := [], nextBrowserId := 7 }

/-- A one-slot pool at the page limit with a queued waiter. -/
def poolWithWaiter : PoolState :=
  { pool := [{ browserId := 0, pageCount := 2, inUse := true }], maxSize := 1,
    maxPagesPerBrowser := 2, waitQueue := [9], nextBrowserId := 1 }

/-! ## Validation of the SHA-256 model -/

/-- FIPS 180-4 test vector, validating the SHA-256 model. -/
theorem sha256Hex_abc :
    sha256Hex ("abc") = "ba7816bf8f01cfea414140de5dae2223b00361a396177a9cb410ff61f20015ad" := by
  decide

/-! ## C1 — first scrape -/

/-- C1 (amended): for every CaseFile with no existing Snapshot whose
scrape job succeeds, the worker creates a Snapshot with `scrapeCount = 1`,
`consecutiveNoChange = 0` and `binnacleCount` equal to the extracted
count, emits no ChangeLogEntries — but updates the CaseFile with
`hasPendingChanges = true`, because `detectChanges` reports
`hasChanges = true` on a first scrape and `markScraped` receives that
flag unfiltered. -/
theorem worker_firstScrape_state (now : Nat) (bs : List RawBinnacleEntry) (st : WorkerState)
    (h : st.snapshot = none) :
    (persistScrapeResult now bs st).1 =
      { snapshot := some
          { contentHash := computeHash (normalizeAllBinnacles bs)
            binnacleCount := bs.length
            rawData := normalizeAllBinnacles bs
            lastScrapedAt := now
            lastChangedAt := some now
            scrapeCount := 1
            consecutiveNoChange := 0
            errorCount := 0
            lastError := none }
        changeLog := st.changeLog
        caseFile := { st.caseFile with
                      wasScanned := true
                      lastScrapedAt := some now
                      hasPendingChanges := true } } := by
  simp [persistScrapeResult, detectChanges, persistSnapshotPhase, snapshotUpsert,
    incrementNoChange, markScraped, h]

/-- C1 witness: the first-scrape theorem applied to a concrete two-entry
extraction over the empty state. -/
theorem worker_firstScrape_state_witness :
    stateNoSnapshot.snapshot = none ∧
    (persistScrapeResult 0 [rawEntryIdx1, rawEntryOther] stateNoSnapshot).1 =
      { snapshot := some
          { contentHash := computeHash (normalizeAllBinnacles [rawEntryIdx1, rawEntryOther])
            binnacleCount := 2
            rawData := normalizeAllBinnacles [rawEntryIdx1, rawEntryOther]
            lastScrapedAt := 0
            lastChangedAt := some 0
            scrapeCount := 1
            consecutiveNoChange := 0
            errorCount := 0
            lastError := none }
        changeLog := []
        caseFile := { caseFileFresh with
                      wasScanned := true
                      lastScrapedAt := some 0
                      hasPendingChanges := true } } :=
  ⟨rfl, worker_firstScrape_state 0 [rawEntryIdx1, rawEntryOther] stateNoSnapshot rfl⟩

/-- C1 counterexample: on the concrete first scrape of two binnacles the
CaseFile ends with `hasPendingChanges = true`, refuting the claimed
`hasPendingChanges = false`. -/
theorem worker_firstScrape_pending_cex :
    (persistScrapeResult 0 [rawEntryIdx1, rawEntryOther] stateNoSnapshot).1.caseFile.hasPendingChanges
      ≠ false := by
  simp [persistScrapeResult, detectChanges, markScraped, stateNoSnapshot]

/-! ## C2 — snapshot counters on follow-up scrapes -/

/-- C2: on every successful non-first scrape that found no changes, the
worker's snapshot persistence sets `consecutiveNoChange` to exactly 1 —
regardless of its previous value — because `upsert` defaults the omitted
field to 0 (`?? 0`) before `incrementNoChange` bumps it; `scrapeCount`
does increment by one as claimed. -/
theorem worker_noChange_counters (det : ChangeDetectionResult) (now vc : Nat)
    (snap : SnapshotRec) (nd : List NormalizedBinnacleData)
    (h1 : det.hasChanges = false) (h2 : det.isFirstScrape = false) :
    persistSnapshotPhase det now (some snap) vc nd =
      some { contentHash := det.newHash, binnacleCount := vc, rawData := nd,
             lastScrapedAt := now,
             lastChangedAt := snap.lastChangedAt,
             scrapeCount := snap.scrapeCount + 1,
             consecutiveNoChange := 1,
             errorCount := 0, lastError := none } := by
  simp [persistSnapshotPhase, snapshotUpsert, incrementNoChange, h1, h2]

/-- C2 witness: the counters theorem applied to the failing input — a
snapshot already at `consecutiveNoChange = 1` (one prior no-change
scrape) receiving another no-change scrape ends at 1, not 2. -/
theorem worker_noChange_counters_witness :
    detectionNoChange.hasChanges = false ∧
    detectionNoChange.isFirstScrape = false ∧
    persistSnapshotPhase detectionNoChange 9 (some snapshotAfterOneNoChange) 1 [normEntryIdx1] =
      some { contentHash := detectionNoChange.newHash, binnacleCount := 1,
             rawData := [normEntryIdx1], lastScrapedAt := 9,
             lastChangedAt := snapshotAfterOneNoChange.lastChangedAt,
             scrapeCount := snapshotAfterOneNoChange.scrapeCount + 1,
             consecutiveNoChange := 1,
             errorCount := 0, lastError := none } :=
  ⟨rfl, rfl, worker_noChange_counters detectionNoChange 9 1 snapshotAfterOneNoChange [normEntryIdx1] rfl rfl⟩

/-! ## C3 — invalid case number handling -/

/-- C3: a Portal search ending on the no-results page raises
InvalidCaseNumber with `retryable = false`, and the worker's job log
records FAILED on the first attempt — but the queue still re-attempts
the job (the rethrown error's flag is never consulted and the queues are
configured with `attempts = 3`), and the failure path leaves the
CaseFile untouched: nothing ever writes `isScanValid = false`. -/
theorem invalidCaseNumber_failure_path (msg : String) (st : WorkerState) :
    classifySubmission noResultsPage = some invalidCaseNumberErr ∧
    invalidCaseNumberErr.retryable = false ∧
    handleScrapeFailure (some invalidCaseNumberErr) msg 0 st =
      ({ st with snapshot := recordError st.snapshot msg }, "FAILED", true) ∧
    (handleScrapeFailure (some invalidCaseNumberErr) msg 0 st).1.caseFile = st.caseFile := by
  refine ⟨by decide, rfl, ?_, rfl⟩
  simp [handleScrapeFailure, workerWillRetry, jobLogFailureStatus, queueRetriesAfterFailure,
    invalidCaseNumberErr, RETRY_MAX_ATTEMPTS]

/-! ## C9 — error tracking on the snapshot -/

/-- C9: every failed attempt routes through `recordError`, which sets the
snapshot's `lastError` to the message and increments `errorCount` when a
snapshot exists; every successful persistence resets `errorCount` to 0
and clears `lastError` (the worker omits both fields and `upsert`
defaults them with `?? 0` / `?? null`). -/
theorem snapshot_error_tracking :
    (∀ (st : WorkerState) (msg : String) (err : Option ScrapeErrCls) (att : Nat)
       (snap : SnapshotRec), st.snapshot = some snap →
       (handleScrapeFailure err msg att st).1.snapshot =
         some { snap with lastError := some msg, errorCount := snap.errorCount + 1 }) ∧
    (∀ (det : ChangeDetectionResult) (now : Nat) (snapOpt : Option SnapshotRec)
       (vc : Nat) (nd : List NormalizedBinnacleData),
       ∃ s', persistSnapshotPhase det now snapOpt vc nd = some s' ∧
         s'.errorCount = 0 ∧ s'.lastError = none) := by
  constructor
  · intro st msg err att snap h
    simp [handleScrapeFailure, recordError, h]
  · intro det now snapOpt vc nd
    cases snapOpt <;>
      simp [persistSnapshotPhase, snapshotUpsert, incrementNoChange] <;>
      split <;> simp

/-- C9 witness: error tracking applied to the concrete state with a
stored snapshot, and persistence of a concrete no-change detection. -/
theorem snapshot_error_tracking_witness :
    stateWithSnapshot.snapshot = some snapshotAfterOneNoChange ∧
    (handleScrapeFailure (some captchaFailedErr) "boom" 0 stateWithSnapshot).1.snapshot =
      some { snapshotAfterOneNoChange with
             lastError := some ("boom")
             errorCount := snapshotAfterOneNoChange.errorCount + 1 } ∧
    ∃ s', persistSnapshotPhase detectionNoChange 9 (some snapshotAfterOneNoChange) 1 [] = some s' ∧
      s'.errorCount = 0 ∧ s'.lastError = none :=
  ⟨rfl,
   snapshot_error_tracking.1 stateWithSnapshot ("boom") (some captchaFailedErr) 0
     snapshotAfterOneNoChange rfl,
   snapshot_error_tracking.2 detectionNoChange 9 (some snapshotAfterOneNoChange) 1 []⟩

/-! ## C4 — adaptive frequency rule -/

/-- C4 counterexample: a CaseFile 200 days old whose snapshot shows 100
days since the last change and 3 days since the last scrape satisfies the
claim's condition (`daysSince(lastChangedAt) > 30` and
`daysSince(lastScrapedAt) ≥ 3`) yet is not due: the very-stale branch
(`> 90` → weekly) takes precedence in the source's exclusive cascade. -/
theorem shouldScrapeNow_highStale_cex :
    (100 : Int) > 30 ∧ (3 : Int) ≥ 3 ∧
    shouldScrapeNow 200 (some { daysSinceLastChanged := some 100, daysSinceLastScraped := 3 })
      = false := by
  decide

/-- C4 (amended): the adaptive rule is an exclusive cascade, not a plain
disjunction — a scrape is due exactly when the case is young, has no
snapshot, changed within 7 days, or falls in exactly one staleness tier:
more than 90 days since the last change requires 7 days since the last
scrape; between 31 and 90 days requires 3; at most 30 days requires 1
(with 999 substituted when `lastChangedAt` is null). -/
theorem shouldScrapeNow_characterization (dCreated : Int) (snap : Option SnapshotStaleness) :
    shouldScrapeNow dCreated snap = true ↔
      (dCreated < 7 ∨
       snap = none ∨
       ∃ s, snap = some s ∧
         ((∃ d, s.daysSinceLastChanged = some d ∧ d < 7) ∨
          (s.daysSinceLastChanged.getD 999 > 90 ∧ s.daysSinceLastScraped ≥ 7) ∨
          (30 < s.daysSinceLastChanged.getD 999 ∧ s.daysSinceLastChanged.getD 999 ≤ 90 ∧
            s.daysSinceLastScraped ≥ 3) ∨
          (s.daysSinceLastChanged.getD 999 ≤ 30 ∧ s.daysSinceLastScraped ≥ 1))) := by
  unfold shouldScrapeNow NEW_CASE_MAX_AGE_DAYS ACTIVE_CHANGE_WINDOW_DAYS HIGH_STALE_DAYS
    MODERATE_STALE_DAYS VERY_STALE_SCRAPE_INTERVAL_DAYS HIGH_STALE_SCRAPE_INTERVAL_DAYS
    MODERATE_STALE_SCRAPE_INTERVAL_DAYS
  cases snap with
  | none => simp
  | some s =>
    cases hd : s.daysSinceLastChanged with
    | none =>
      simp only [hd, Option.getD_some, Option.getD_none]
      split <;> rename_i h1
      · simp; omega
      · split <;> rename_i h2
        · simp_all
        · split <;> rename_i h3 <;> [skip; split <;> rename_i h4] <;>
            simp_all <;> omega
    | some d =>
      simp only [hd, Option.getD_some]
      split <;> rename_i h1
      · simp; omega
      · split <;> rename_i h2
        · simp_all <;> omega
        · split <;> rename_i h3 <;> [skip; split <;> rename_i h4] <;>
            simp_all <;> omega

/-! ## C8 — deadline-based priority -/

/-- C8 counterexample: at 23:30 Lima (minute 1410) a Tenant with no
configured hours gets priority LOW (5) from the source, while the claim's
23:59 default (29 minutes away, under one hour) demands CRITICAL (1). -/
theorem priority_emptyHours_cex :
    calculatePriorityFromMultipleHours 1410 [] = 5 ∧
    specClaimPriorityWithDefault 1410 [] = 1 ∧
    calculatePriorityFromMultipleHours 1410 [] ≠ specClaimPriorityWithDefault 1410 [] := by
  decide

/-- C8 (amended): the scheduler's priority is computed from the minimum
`hoursUntil` over the Tenant's configured hours with the stated
thresholds (< 1 hour → 1, < 3 → 2, < 6 → 3, else 5); a Tenant with no
configured hours gets LOW (5) directly — the 23:59 default applies only
to the batch deadline, not the priority — and INITIAL and PRIORITY jobs
are always enqueued with priority 1. -/
theorem priority_rule :
    (∀ now, calculatePriorityFromMultipleHours now [] = PRIORITY_LOW) ∧
    (∀ now h t, calculatePriorityFromMultipleHours now (h :: t) =
       priorityFromMinutes ((((h :: t).map (hoursUntilMinutes now)).min?).getD 0)) ∧
    (∀ m, (m < 60 → priorityFromMinutes m = 1) ∧
          (60 ≤ m → m < 180 → priorityFromMinutes m = 2) ∧
          (180 ≤ m → m < 360 → priorityFromMinutes m = 3) ∧
          (360 ≤ m → priorityFromMinutes m = 5)) ∧
    (∀ cf d, (enqueueInitialScrape cf d).priority = 1) ∧
    (∀ cf ms, (enqueuePriorityScrape cf ms).priority = 1) := by
  refine ⟨fun now => rfl, fun now h t => ?_, fun m => ?_, fun cf d => rfl, fun cf ms => rfl⟩
  · simp [calculatePriorityFromMultipleHours, List.min?]
  · unfold priorityFromMinutes PRIORITY_CRITICAL PRIORITY_HIGH PRIORITY_MEDIUM PRIORITY_LOW
    refine ⟨fun h1 => ?_, fun h1 h2 => ?_, fun h1 h2 => ?_, fun h1 => ?_⟩ <;>
      split_ifs <;> omega

/-- C8 witness: the priority rule applied at concrete inputs — one
configured hour 30 minutes away yields priority 1, and the threshold
clauses discharged at 30, 90, 200 and 400 minutes. -/
theorem priority_rule_witness :
    calculatePriorityFromMultipleHours 1000 [] = PRIORITY_LOW ∧
    calculatePriorityFromMultipleHours 1000 [1030] =
      priorityFromMinutes ((([1030].map (hoursUntilMinutes 1000)).min?).getD 0) ∧
    priorityFromMinutes 30 = 1 ∧ priorityFromMinutes 90 = 2 ∧
    priorityFromMinutes 200 = 3 ∧ priorityFromMinutes 400 = 5 ∧
    (enqueueInitialScrape 4 ("20261011")).priority = 1 ∧
    (enqueuePriorityScrape 4 123).priority = 1 :=
  ⟨priority_rule.1 1000,
   priority_rule.2.1 1000 1030 [],
   (priority_rule.2.2.1 30).1 (by decide),
   (priority_rule.2.2.1 90).2.1 (by decide) (by decide),
   (priority_rule.2.2.1 200).2.2.1 (by decide) (by decide),
   (priority_rule.2.2.1 400).2.2.2 (by decide),
   priority_rule.2.2.2.1 4 ("20261011"),
   priority_rule.2.2.2.2 4 123⟩

/-! ## C6 — browser pool recycling -/

/-- C6 counterexample: with one slot and a two-page limit, a first worker
holds the session (one page), a second worker queues, and the release
hands the same session to the waiter with its page counter bumped to 2 —
at the recycle threshold — without any reset: the hand-off acquisition
path never recycles even after `maxPagesPerBrowser` pages. -/
theorem pool_handoff_no_recycle_cex :
    (poolRelease (poolAcquire (poolAcquire poolOneSlot 1).1 2).1 0).2 =
      some (2, { browserId := 0, pageCount := 2, inUse := true }) ∧
    poolOneSlot.maxPagesPerBrowser ≤ 2 ∧
    ((poolRelease (poolAcquire (poolAcquire poolOneSlot 1).1 2).1 0).2.map
      (fun p => p.2.pageCount)) ≠ some 0 := by
  decide

/-- C6 (amended): recycling happens only on the direct `acquire` path —
when `acquire` finds an idle session whose bumped counter reaches
`maxPagesPerBrowser` it closes and replaces it, returning a session with
the counter reset to 0; but the hand-off from `release` to a queued
waiter performs no recycle check: it bumps the counter and hands the
session out unchanged, even at or past the threshold. -/
theorem pool_recycle_paths :
    (∀ (s : PoolState) (w i : Nat),
       s.pool.findIdx? (fun pb => !pb.inUse) = some i →
       s.maxPagesPerBrowser ≤ (s.pool.getD i defaultPooledBrowser).pageCount + 1 →
       (poolAcquire s w).2 =
         AcquireOutcome.acquired { browserId := s.nextBrowserId, pageCount := 0, inUse := true }) ∧
    (∀ (s : PoolState) (bid i wtr : Nat) (rest : List Nat),
       s.pool.findIdx? (fun pb => pb.browserId = bid) = some i →
       s.waitQueue = wtr :: rest →
       (poolRelease s bid).2 =
         some (wtr, { s.pool.getD i defaultPooledBrowser with
                      inUse := true
                      pageCount := (s.pool.getD i defaultPooledBrowser).pageCount + 1 })) := by
  constructor
  · intro s w i hfind hlim
    unfold poolAcquire
    rw [hfind]
    simp only []
    rw [if_pos (by simpa using hlim)]
  · intro s bid i wtr rest hfind hq
    unfold poolRelease
    rw [hfind, hq]

/-- C6 witness: the recycle-path properties applied to concrete states —
a one-slot pool whose idle session is at one page below a threshold of 2
recycles on acquire and returns a fresh session with counter 0, and a
release over a queued waiter hands the bumped session out directly. -/
theorem pool_recycle_paths_witness :
    (poolNearLimit.pool.findIdx? (fun pb => !pb.inUse) = some 0) ∧
    (poolAcquire poolNearLimit 3).2 =
      AcquireOutcome.acquired { browserId := 7, pageCount := 0, inUse := true } ∧
    (poolRelease poolWithWaiter 0).2 =
      some (9, { browserId := 0, pageCount := 3, inUse := true }) := by
  refine ⟨by decide, ?_, ?_⟩
  · exact pool_recycle_paths.1 poolNearLimit 3 0 (by decide) (by decide)
  · exact pool_recycle_paths.2 poolWithWaiter 0 0 9 [] (by decide) (by decide)

/-! ## C7 — structured diff -/

theorem mapGet_isSome_of_mem (m : List (String × NormalizedBinnacleData))
    (p : String × NormalizedBinnacleData) (hp : p ∈ m) :
    (mapGet m p.1).isSome = true := by
  induction m with
  | nil => cases hp
  | cons q rest ih =>
    unfold mapGet
    by_cases hk : q.1 = p.1
    · simp [hk]
    · rcases List.mem_cons.mp hp with h | h
      · exact absurd (congrArg Prod.fst h.symm) hk
      · simpa [hk] using ih h

theorem foldl_diffStep_fst (oldMap : List (String × NormalizedBinnacleData)) (t : Nat)
    (nd : List NormalizedBinnacleData) :
    ∀ acc : List ChangeEntry × List String,
      (nd.foldl (diffStep oldMap t) acc).1 = acc.1 ++ nd.flatMap (diffBlock oldMap t) := by
  induction nd with
  | nil => intro acc; simp
  | cons a l ih =>
    intro acc
    rw [List.foldl_cons, ih]
    unfold diffStep diffBlock
    cases h : mapGet oldMap (buildEntryKey a) <;> simp [h]

theorem foldl_diffStep_snd_contains (oldMap : List (String × NormalizedBinnacleData)) (t : Nat)
    (nd : List NormalizedBinnacleData) :
    ∀ (acc : List ChangeEntry × List String) (k : String),
      ((nd.foldl (diffStep oldMap t) acc).2.contains k) =
        (acc.2.contains k ||
         nd.any (fun ne => (k == buildEntryKey ne) && (mapGet oldMap (buildEntryKey ne)).isSome)) := by
  induction nd with
  | nil => intro acc k; simp
  | cons a l ih =>
    intro acc k
    rw [List.foldl_cons, ih]
    unfold diffStep
    cases h : mapGet oldMap (buildEntryKey a) with
    | none => simp [h]
    | some oe =>
      simp only [h, List.any_cons, Option.isSome_some, Bool.and_true, List.contains_cons]
      cases hk : k == buildEntryKey a <;> simp [Bool.or_assoc]

theorem contains_map_eq_any (l : List NormalizedBinnacleData)
    (f : NormalizedBinnacleData → String) (k : String) :
    ((l.map f).contains k) = l.any (fun x => k == f x) := by
  induction l with
  | nil => rfl
  | cons a t ih => simp only [List.map_cons, List.contains_cons, List.any_cons, ih]

/-- C7 (amended): the structured diff keys entries by
`(resolutionDate, entryDate, resolution)`; its output is exactly the
per-new-entry blocks in new-data order (one NEW_BINNACLE when the key is
absent from the old map, else one MODIFIED_BINNACLE per differing
compared field with stringified old/new values), followed by one
REMOVED_BINNACLE per unmatched old-map entry in insertion order — old
entries sharing a key having collapsed in the map (the last one wins,
at the first one's position) — and every emitted entry carries the same
`detectedAt` stamp. -/
theorem computeStructuredDiff_spec :
    (∀ (oldData newData : List NormalizedBinnacleData) (t : Nat),
       computeStructuredDiff oldData newData t =
         newData.flatMap (diffBlock (buildOldMap oldData) t) ++
         ((buildOldMap oldData).filter
           (fun p => !((newData.map buildEntryKey).contains p.1))).map
           (fun p => removedBinnacleChange p.2 t)) ∧
    (∀ oldData newData t e, e ∈ computeStructuredDiff oldData newData t → e.detectedAt = t) := by
  have hmain : ∀ (oldData newData : List NormalizedBinnacleData) (t : Nat),
      computeStructuredDiff oldData newData t =
        newData.flatMap (diffBlock (buildOldMap oldData) t) ++
        ((buildOldMap oldData).filter
          (fun p => !((newData.map buildEntryKey).contains p.1))).map
          (fun p => removedBinnacleChange p.2 t) := by
    intro oldData newData t
    unfold computeStructuredDiff
    dsimp only
    rw [foldl_diffStep_fst, List.nil_append]
    congr 1
    congr 1
    apply List.filter_congr
    intro p hp
    rw [foldl_diffStep_snd_contains]
    have hfun : (fun ne => (p.1 == buildEntryKey ne) &&
        (mapGet (buildOldMap oldData) (buildEntryKey ne)).isSome) =
        (fun ne => p.1 == buildEntryKey ne) := by
      funext ne
      cases hc : p.1 == buildEntryKey ne
      · simp
      · have : buildEntryKey ne = p.1 := (eq_of_beq hc).symm
        rw [this, mapGet_isSome_of_mem (buildOldMap oldData) p hp]
        simp
    rw [hfun, contains_map_eq_any newData buildEntryKey p.1]
    simp
  constructor
  · exact hmain
  · intro oldData newData t e he
    rw [hmain] at he
    rcases List.mem_append.mp he with h | h
    · rcases List.mem_flatMap.mp h with ⟨ne, _, hin⟩
      unfold diffBlock at hin
      cases hm : mapGet (buildOldMap oldData) (buildEntryKey ne) <;> rw [hm] at hin
      · simp only [List.mem_singleton] at hin
        rw [hin]; rfl
      · unfold compareFields at hin
        rcases List.mem_filterMap.mp hin with ⟨f, _, hsome⟩
        dsimp only at hsome
        split at hsome
        · cases hsome; rfl
        · cases hsome
    · rcases List.mem_map.mp h with ⟨p, _, hpe⟩
      rw [← hpe]; rfl

set_option maxRecDepth 1000000 in
/-- C7 witness: the diff characterization applied to a concrete pair —
one removed old entry — and its detectedAt stamp. -/
theorem computeStructuredDiff_spec_witness :
    (computeStructuredDiff [dupIdxA] [] 3 =
      ([] : List NormalizedBinnacleData).flatMap (diffBlock (buildOldMap [dupIdxA]) 3) ++
      ((buildOldMap [dupIdxA]).filter
        (fun p => !((([] : List NormalizedBinnacleData).map buildEntryKey).contains p.1))).map
        (fun p => removedBinnacleChange p.2 3)) ∧
    (removedBinnacleChange dupIdxA 3 ∈ computeStructuredDiff [dupIdxA] [] 3) ∧
    (removedBinnacleChange dupIdxA 3).detectedAt = 3 :=
  ⟨computeStructuredDiff_spec.1 [dupIdxA] [] 3,
   by decide,
   computeStructuredDiff_spec.2 [dupIdxA] [] 3 (removedBinnacleChange dupIdxA 3) (by decide)⟩

set_option maxRecDepth 1000000 in
/-- C7 counterexample: two old entries share the key `(none, none, "R")`
and none match the (empty) new data; the claim demands one
REMOVED_BINNACLE per unmatched old entry (two), but the key-deduplicating
map collapses them and the source emits exactly one — for the second
entry, which overwrote the first in the map. -/
theorem computeStructuredDiff_removed_dup_cex :
    buildEntryKey dupIdxA = buildEntryKey dupIdxB ∧
    dupIdxA ≠ dupIdxB ∧
    (computeStructuredDiff dupKeyOld [] 0).length ≠ 2 ∧
    computeStructuredDiff dupKeyOld [] 0 = [removedBinnacleChange dupIdxB 0] := by
  refine ⟨by decide, by decide, ?_, by decide⟩
  decide

/-! ## C5 — content hash properties -/

theorem sortByIndex_eq_of_perm (L P : List NormalizedBinnacleData)
    (hperm : P.Perm L) (hnodup : (L.map (fun e => e.index)).Nodup) :
    sortByIndex P = sortByIndex L := by
  unfold sortByIndex
  haveI : IsTotal NormalizedBinnacleData (fun a b => a.index ≤ b.index) :=
    ⟨fun a b => Int.le_total a.index b.index⟩
  haveI : IsTrans NormalizedBinnacleData (fun a b => a.index ≤ b.index) :=
    ⟨fun a b c hab hbc => le_trans hab hbc⟩
  haveI : IsAntisymm NormalizedBinnacleData (fun a b => a.index < b.index) :=
    ⟨fun a b h1 h2 => absurd (lt_trans h1 h2) (lt_irrefl _)⟩
  have hps := List.sorted_insertionSort (fun a b : NormalizedBinnacleData => a.index ≤ b.index) P
  have hls := List.sorted_insertionSort (fun a b : NormalizedBinnacleData => a.index ≤ b.index) L
  have hpermP : (List.insertionSort (fun a b : NormalizedBinnacleData => a.index ≤ b.index) P).Perm L :=
    (List.perm_insertionSort _ P).trans hperm
  have hpermL := List.perm_insertionSort (fun a b : NormalizedBinnacleData => a.index ≤ b.index) L
  have hperm2 := hpermP.trans hpermL.symm
  have hstrict : ∀ (l : List NormalizedBinnacleData),
      List.Sorted (fun a b => a.index ≤ b.index) l →
      ((l.map (fun e => e.index)).Nodup) →
      List.Sorted (fun a b : NormalizedBinnacleData => a.index < b.index) l := by
    intro l hs hn
    have hne : l.Pairwise (fun a b => a.index ≠ b.index) := by
      rw [List.Nodup, List.pairwise_map] at hn
      exact hn
    exact (hs.and hne).imp (fun h => lt_of_le_of_ne h.1 h.2)
  have hsl := hstrict _ hps ((List.Perm.nodup_iff (hpermP.map _)).mpr hnodup)
  have hsr := hstrict _ hls ((List.Perm.nodup_iff (hpermL.map _)).mpr hnodup)
  exact List.eq_of_perm_of_sorted hperm2 hsl hsr

theorem hexDigit_mem (n : Nat) : hexDigit n ∈ hexDigitChars := by
  unfold hexDigit
  by_cases h : n < hexDigitChars.length
  · rw [List.getD_eq_getElem _ _ h]
    exact List.getElem_mem h
  · rw [List.getD_eq_default _ _ (le_of_not_lt h)]
    decide

theorem flatMapHex_length (bs : List Nat) :
    (bs.flatMap (fun b => [hexDigit (b / 16), hexDigit (b % 16)])).length = 2 * bs.length := by
  induction bs with
  | nil => rfl
  | cons b t ih =>
    rw [List.flatMap_cons, List.length_append, ih]
    simp
    omega

theorem sha256Bytes_length (msg : List Nat) : (sha256Bytes msg).length = 32 := by
  simp [sha256Bytes, wordBytes]

/-- C5 (amended): for every list of normalized binnacle entries with
pairwise-distinct `index` values (as one scrape's extraction produces),
the content hash is invariant under permutation of the input; the hash is
SHA-256 over the UTF-8 serialization of the entries stably sorted by
index with keys in fixed lexicographic order, and is always a 64-character
string over the lowercase hex alphabet. With a duplicated index the
stable sort preserves input order of the tied entries, so permutation
invariance can fail (see the counterexample). -/
theorem computeHash_props :
    (∀ (L P : List NormalizedBinnacleData), P.Perm L →
       ((L.map (fun e => e.index)).Nodup) → computeHash P = computeHash L) ∧
    (∀ L : List NormalizedBinnacleData, (computeHash L).length = 64) ∧
    (∀ (L : List NormalizedBinnacleData) (c : Char),
       c ∈ (computeHash L).data → c ∈ hexDigitChars) := by
  refine ⟨?_, ?_, ?_⟩
  · intro L P hperm hnodup
    unfold computeHash
    rw [sortByIndex_eq_of_perm L P hperm hnodup]
  · intro L
    show (bytesToHex _).length = 64
    unfold bytesToHex
    rw [String.length]
    rw [flatMapHex_length, sha256Bytes_length]
  · intro L c hc
    have hc2 : c ∈ (bytesToHex (sha256Bytes (utf8Encode (serializeSortedKeys (sortByIndex L))))).data := hc
    unfold bytesToHex at hc2
    rcases List.mem_flatMap.mp hc2 with ⟨b, _, hb⟩
    simp only [List.mem_cons, List.mem_singleton, List.not_mem_nil, or_false] at hb
    rcases hb with rfl | rfl
    · exact hexDigit_mem _
    · exact hexDigit_mem _

/-- C5 witness: permutation invariance applied to a concrete two-entry
list with distinct indices, plus the hypotheses discharged concretely. -/
theorem computeHash_props_witness :
    ([idx2Entry, dupIdxA].Perm [dupIdxA, idx2Entry]) ∧
    (([dupIdxA, idx2Entry].map (fun e => e.index)).Nodup) ∧
    computeHash [idx2Entry, dupIdxA] = computeHash [dupIdxA, idx2Entry] :=
  ⟨by decide, by decide,
   computeHash_props.1 [dupIdxA, idx2Entry] [idx2Entry, dupIdxA] (by decide) (by decide)⟩

set_option maxRecDepth 2000000 in
/-- C5 counterexample: two entries share index 1 but differ in `acto`;
swapping them is a permutation, yet the stable sort keeps the input
order of the tie, the serializations differ, and the SHA-256 hashes
differ — refuting hash invariance under every permutation. -/
theorem computeHash_perm_cex :
    ([dupIdxB, dupIdxA].Perm [dupIdxA, dupIdxB]) ∧
    computeHash [dupIdxB, dupIdxA] ≠ computeHash [dupIdxA, dupIdxB] := by
  constructor
  · decide
  · decide

/-! ## C10 — hasChanges reflects the structured diff, not the hash -/

set_option maxRecDepth 2000000 in
/-- C10: for every non-empty previous snapshot, `detectChanges` reports
`hasChanges = true` exactly when the structured diff it returns is
non-empty; and on the concrete input where only an entry's `index`
changed — `index` participates in the hash but in neither the diff key
nor the compared fields — the result is `hasChanges = false` with an
empty diff while `newHash` still differs from `oldHash`, so the new hash
is stored without any ChangeLogEntry. -/
theorem detectChanges_hasChanges_iff :
    (∀ (now : Nat) (bs : List RawBinnacleEntry) (prev : List NormalizedBinnacleData)
       (h : String), prev ≠ [] →
       ((detectChanges now bs (some prev) h).hasChanges = true ↔
        (detectChanges now bs (some prev) h).changes ≠ [])) ∧
    ((detectChanges 0 [rawEntryIdx2] (some [normEntryIdx1])
        (computeHash [normEntryIdx1])).hasChanges = false ∧
     (detectChanges 0 [rawEntryIdx2] (some [normEntryIdx1])
        (computeHash [normEntryIdx1])).changes = [] ∧
     (detectChanges 0 [rawEntryIdx2] (some [normEntryIdx1])
        (computeHash [normEntryIdx1])).newHash ≠
       (detectChanges 0 [rawEntryIdx2] (some [normEntryIdx1])
        (computeHash [normEntryIdx1])).oldHash) := by
  constructor
  · intro now bs prev h hne
    unfold detectChanges
    dsimp only
    rw [if_neg (by simp [hne])]
    split
    · simp
    · simp [List.length_pos]
  · refine ⟨by decide, by decide, by decide⟩

set_option maxRecDepth 2000000 in
/-- C10 witness: the iff applied to a concrete non-empty previous
snapshot. -/
theorem detectChanges_hasChanges_iff_witness :
    ([normEntryIdx1] ≠ ([] : List NormalizedBinnacleData)) ∧
    ((detectChanges 0 [] (some [normEntryIdx1]) "x").hasChanges = true ↔
     (detectChanges 0 [] (some [normEntryIdx1]) "x").changes ≠ []) :=
  ⟨by decide, detectChanges_hasChanges_iff.1 0 [] [normEntryIdx1] "x" (by decide)⟩
